import Mathlib

/-!
Verification development for the `audio_controller` repository.

Shallow embedding of the reactive core:
* `event_router.py` — publish/subscribe broker with a "gate" (an asyncio
  Future awaited by `fire_event`, resolved by `start_routing`);
* `devices/bluetoothController.py` — Bluetooth power/discoverability and
  the pairing agent with its 90 s pairing window;
* `devices/remote_control.py` — short/long key-press classification;
* `devices/pcm_monitor.py` — playback polling loop;
* `devices/hk970.py` — amplifier controller with debounced power-off.

Machine state is modelled explicitly; timers are modelled as handles drawn
from a counter, with a list of currently live (armed, neither fired nor
cancelled) handles, so that cancellation semantics of `asyncio.TimerHandle`
is visible in the state.
-/

/-- The closed event enumeration of `event_router.Event`. -/
inductive Event
  | PLAYBACK_START
  | PLAYBACK_STOP
  | KEY_OPENCLOSE
  | KEY_OPENCLOSE_LONG
  | API_BLUETOOTH_ON
  | API_BLUETOOTH_OFF
  | API_BLUETOOTH_DISCOVERABLE
deriving DecidableEq

/-- Handlers are identified by a number (the Python object identity of the
registered callback). -/
abbrev Handler := Nat

/-- The free-text `caller` string passed to `fire_event`. -/
abbrev Origin := String

/-- State of `_EventRouter`: the `_callbacks` defaultdict (default: empty
set, modelled as a duplicate-free list in insertion order), whether the
`_start_routing` future has been resolved, the fires currently suspended on
`await self._start_routing`, and the log of handler invocations made so
far (handler, event, caller). -/
structure RouterState where
  callbacks : Event → List Handler
  gateOpen : Bool
  pending : List (Event × Origin)
  delivered : List (Handler × Event × Origin)

/-- Router state at process start: empty subscription table, gate closed. -/
def routerInit : RouterState :=
  { callbacks := fun _ => [], gateOpen := false, pending := [], delivered := [] }

/-- Python `set.add` on the per-event handler set: idempotent insertion. -/
def setAdd (l : List Handler) (h : Handler) : List Handler :=
  if h ∈ l then l else l ++ [h]

/-- Source `_EventRouter.subscribe`: for each event in the iterable, add the
callback to `_callbacks[event]`. -/
def subscribe (s : RouterState) (events : List Event) (cb : Handler) : RouterState :=
  events.foldl
    (fun st e =>
      { st with callbacks := fun e2 => if e2 = e then setAdd (st.callbacks e) cb else st.callbacks e2 })
    s

/-- A handler behaviour: `true` means the callback returns normally on that
event, `false` means it raises an exception when invoked. -/
abbrev Behaviour := Handler → Event → Bool

/-- The fan-out loop body of `fire_event`:
`for c in self._callbacks[event]: c(event, caller)`.
Returns the invocations actually made (in order) and, because the loop has
no `try`/`except`, the identity of the first handler whose exception
escaped (aborting the loop), if any. -/
def fanout (behav : Behaviour) (hs : List Handler) (e : Event) (o : Origin) :
    List (Handler × Event × Origin) × Option Handler :=
  match hs with
  | [] => ([], none)
  | h :: rest =>
      if behav h e then
        let r := fanout behav rest e o
        ((h, e, o) :: r.1, r.2)
      else
        ([(h, e, o)], some h)

/-- Source `_EventRouter.fire_event`: `await self._start_routing`, then call every
callback registered for the event. If the gate is still closed the
coroutine suspends (modelled by queueing the fire on `pending`); if open,
fan-out happens immediately against the current table. The second
component is the exception escaping `fire_event`, if any. -/
def fire_event (behav : Behaviour) (s : RouterState) (e : Event) (o : Origin) :
    RouterState × Option Handler :=
  if s.gateOpen then
    let r := fanout behav (s.callbacks e) e o
    ({ s with delivered := s.delivered ++ r.1 }, r.2)
  else
    ({ s with pending := s.pending ++ [(e, o)] }, none)

/-- Resume a FIFO list of suspended fires, each running its fan-out loop
against the subscription table as it stands at that moment. -/
def deliverAll (behav : Behaviour) (st : RouterState) (l : List (Event × Origin)) : RouterState :=
  l.foldl
    (fun st2 p =>
      let r := fanout behav (st2.callbacks p.1) p.1 p.2
      { st2 with delivered := st2.delivered ++ r.1 })
    st

/-- Source `_EventRouter.start_routing`: resolve the future. All fires suspended on
it resume, in FIFO order. -/
def start_routing (behav : Behaviour) (s : RouterState) : RouterState :=
  deliverAll behav { s with gateOpen := true, pending := [] } s.pending

/-- External stimuli applied to the router. -/
inductive Cmd
  | subscribe (events : List Event) (cb : Handler)
  | fire (e : Event) (o : Origin)
  | openGate
deriving DecidableEq

/-- Run a list of stimuli against the router. -/
def run (behav : Behaviour) (s : RouterState) : List Cmd → RouterState
  | [] => s
  | Cmd.subscribe es cb :: rest => run behav (subscribe s es cb) rest
  | Cmd.fire e o :: rest => run behav (fire_event behav s e o).1 rest
  | Cmd.openGate :: rest => run behav (start_routing behav s) rest

/-- The fires among a stimulus list, in order. -/
def firesOf : List Cmd → List (Event × Origin)
  | [] => []
  | Cmd.fire e o :: rest => (e, o) :: firesOf rest
  | _ :: rest => firesOf rest

/-! ### Bluetooth controller and agent (`devices/bluetoothController.py`)

Adapter calls (`set_powered`, `set_discoverable`, `set_trusted`,
`RemoveDevice`) are modelled as updates of the corresponding state fields.
A pairing-expiry timer armed by `call_later` gets a fresh handle from
`nextTimer`; `liveTimers` holds the handles that are armed and have
neither fired nor been cancelled. -/

/-- Joint state of `BluetoothController`, its `_BluetoothAgent`, and the
adapter it drives. -/
structure BTState where
  powered : Bool
  discoverable : Bool
  pairable : Bool
  discoverableTimeout : Nat
  allowPairing : Bool
  pairingTimer : Option Nat
  liveTimers : List Nat
  nextTimer : Nat
  trusted : List String
  registered : List String
deriving DecidableEq

/-- State right after `BluetoothController._init`: pairable, 90 s
discoverable timeout, forced powered-off baseline, no pairing window, and
the agent attribute `_pairing_timeout_timer` not yet set. -/
def btInit : BTState :=
  { powered := false, discoverable := false, pairable := true,
    discoverableTimeout := 90, allowPairing := false, pairingTimer := none,
    liveTimers := [], nextTimer := 0, trusted := [], registered := [] }

/-- Source `BluetoothController.power_on`: `set_powered(True)` then
`set_discoverable(True)`. -/
def power_on (s : BTState) : BTState :=
  { s with powered := true, discoverable := true }

/-- Source `BluetoothController.power_off`: `set_powered(False)`. -/
def power_off (s : BTState) : BTState :=
  { s with powered := false }

/-- Source `BluetoothController.stop_discoverable`: `set_discoverable(False)`. -/
def stop_discoverable (s : BTState) : BTState :=
  { s with discoverable := false }

/-- Source `BluetoothController.trust_device`: `device.set_trusted(True)`. -/
def trust_device (s : BTState) (d : String) : BTState :=
  { s with trusted := if d ∈ s.trusted then s.trusted else s.trusted ++ [d] }

/-- Source `BluetoothController.forget_device`: `adapter.RemoveDevice(device)` —
erases the device object, including its registration and trust state. -/
def forget_device (s : BTState) (d : String) : BTState :=
  { s with registered := s.registered.filter (fun x => x ≠ d),
           trusted := s.trusted.filter (fun x => x ≠ d) }

/-- Source `_BluetoothAgent.stop_pairing_mode`: deny further pairing and cancel
the expiry timer (`AttributeError` — the attribute never set — is
swallowed; cancelling an already-fired or already-cancelled handle is a
no-op, modelled by the filter removing nothing). -/
def stop_pairing_mode (s : BTState) : BTState :=
  match s.pairingTimer with
  | none => { s with allowPairing := false }
  | some t => { s with allowPairing := false,
                       liveTimers := s.liveTimers.filter (fun x => x ≠ t) }

/-- Source `_BluetoothAgent.start_pairing_mode`: first `stop_pairing_mode()` (the
cancel), then allow pairing and arm a fresh 90 s expiry timer. -/
def start_pairing_mode (s : BTState) : BTState :=
  let s1 := stop_pairing_mode s
  { s1 with allowPairing := true,
            pairingTimer := some s1.nextTimer,
            liveTimers := s1.liveTimers ++ [s1.nextTimer],
            nextTimer := s1.nextTimer + 1 }

/-- Source `BluetoothController.make_discoverable`: `start_pairing_mode()` then
`power_on()`. -/
def make_discoverable (s : BTState) : BTState :=
  power_on (start_pairing_mode s)

/-- The event loop firing the pairing-expiry timer `t`: only a live handle
fires; firing runs `stop_pairing_mode`. -/
def pairingTimerFire (s : BTState) (t : Nat) : BTState :=
  if t ∈ s.liveTimers then
    stop_pairing_mode { s with liveTimers := s.liveTimers.filter (fun x => x ≠ t) }
  else s

/-- Source `_BluetoothAgent.AuthorizeService`: grant when in pairing mode (stop
pairing mode, trust the device, close discoverability), otherwise forget
the state of the device and raise `DBusError("org.bluez.Error.Rejected", ...)`.
Returns the state after the call together with the outcome of the call. -/
def AuthorizeService (s : BTState) (device : String) (uuid : String) :
    BTState × Except String Unit :=
  let _ := uuid
  if s.allowPairing then
    (stop_discoverable (trust_device (stop_pairing_mode s) device), Except.ok ())
  else
    (forget_device s device, Except.error "org.bluez.Error.Rejected")

/-- Stimuli reaching the Bluetooth controller: the three subscribed event
handlers, the expiry timer firing, and the agent callback. -/
inductive BTCmd
  | powerOn
  | powerOff
  | makeDiscoverable
  | timerFire (t : Nat)
  | authorize (d : String) (u : String)

/-- One stimulus step of the Bluetooth controller. -/
def btStep (s : BTState) : BTCmd → BTState
  | BTCmd.powerOn => power_on s
  | BTCmd.powerOff => power_off s
  | BTCmd.makeDiscoverable => make_discoverable s
  | BTCmd.timerFire t => pairingTimerFire s t
  | BTCmd.authorize d u => (AuthorizeService s d u).1

/-- Run a list of stimuli against the Bluetooth controller. -/
def btRun (s : BTState) (cmds : List BTCmd) : BTState :=
  cmds.foldl btStep s

/-- The pairing-window timer discipline: every live expiry-timer handle is
the one currently stored in `_pairing_timeout_timer`, and at most one is
live. -/
def pairingTimerInv (s : BTState) : Prop :=
  s.liveTimers.length ≤ 1 ∧ ∀ t ∈ s.liveTimers, s.pairingTimer = some t

/-! ### Amplifier controller (`devices/hk970.py`)

IR commands issued through lirc are recorded in order in `commands`. -/

/-- State of `HK970` plus its armed shutdown timers. -/
structure AmpState where
  commands : List String
  shutdownTimer : Option Nat
  liveTimers : List Nat
  nextTimer : Nat
deriving DecidableEq

/-- Source `HK970.power_on`: `send_once("HK970", "KEY_POWER")`. -/
def amp_power_on (s : AmpState) : AmpState :=
  { s with commands := s.commands ++ ["KEY_POWER"] }

/-- Source `HK970.power_off`: `send_once("HK970", "KEY_SLEEP")`. -/
def amp_power_off (s : AmpState) : AmpState :=
  { s with commands := s.commands ++ ["KEY_SLEEP"] }

/-- State after `HK970.__init__`, which ends with `self.power_off()`. -/
def ampInit : AmpState :=
  amp_power_off { commands := [], shutdownTimer := none, liveTimers := [], nextTimer := 0 }

/-- Source `HK970.playback_stop`: arm a 60 s delayed `power_off` and store its
handle; the previous handle is overwritten without being cancelled. -/
def playback_stop (s : AmpState) : AmpState :=
  { s with shutdownTimer := some s.nextTimer,
           liveTimers := s.liveTimers ++ [s.nextTimer],
           nextTimer := s.nextTimer + 1 }

/-- Source `HK970.playback_start`: cancel the stored shutdown timer (if any
handle was ever stored) and power on immediately. -/
def playback_start (s : AmpState) : AmpState :=
  amp_power_on
    (match s.shutdownTimer with
     | some t => { s with liveTimers := s.liveTimers.filter (fun x => x ≠ t) }
     | none => s)

/-- The event loop firing shutdown timer `t`: only a live handle fires;
firing runs `power_off`. -/
def ampTimerFire (s : AmpState) (t : Nat) : AmpState :=
  if t ∈ s.liveTimers then
    amp_power_off { s with liveTimers := s.liveTimers.filter (fun x => x ≠ t) }
  else s

/-! ### Remote control classifier (`devices/remote_control.py`) -/

/-- A decoded evdev key event: keycode, keystate (`key_up = 0`,
`key_down = 1`, `key_hold = 2`), and the event timestamp in seconds. -/
structure KeyInput where
  keycode : String
  keystate : Nat
  timestamp : ℚ

/-- State of `RemoteControl`: the `_key_down_timestamps` dict and the
events fired so far, in order. -/
structure RCState where
  keyDownTimestamps : String → Option ℚ
  fired : List Event

/-- The `RemoteControl` state at construction: empty tracker, nothing fired. -/
def rcInit : RCState :=
  { keyDownTimestamps := fun _ => none, fired := [] }

/-- Source `RemoteControl.KEY_EVENTS`. -/
def KEY_EVENTS : String → Option Event :=
  fun k => if k = "KEY_EJECTCLOSECD" then some Event.KEY_OPENCLOSE else none

/-- Source `RemoteControl.KEY_EVENTS_LONGPRESS`. -/
def KEY_EVENTS_LONGPRESS : String → Option Event :=
  fun k => if k = "KEY_EJECTCLOSECD" then some Event.KEY_OPENCLOSE_LONG else none

/-- Source `RemoteControl.LONGPRESS_THRESHOLD` (seconds). -/
def LONGPRESS_THRESHOLD : ℚ := 3

/-- The per-key-event body of `RemoteControl._read_keys`, parameterized by
the two mapping dictionaries. Key-down on a key with a long-press mapping
records the timestamp (overwriting any stale entry); key-up classifies the
press, fires at most one event, and deletes the tracker entry (a missing
entry — `KeyError` — is swallowed). The `none` fall-through in the
long-press fire can only be reached if the tracker held a key without a
long mapping, which the key-down guard prevents. -/
def read_key (kE kEL : String → Option Event) (s : RCState) (ev : KeyInput) : RCState :=
  if ev.keystate = 1 ∧ (kEL ev.keycode).isSome = true then
    { s with keyDownTimestamps := fun k =>
        if k = ev.keycode then some ev.timestamp else s.keyDownTimestamps k }
  else if ev.keystate = 0 then
    let longFire : Bool :=
      match s.keyDownTimestamps ev.keycode with
      | some t0 => decide (ev.timestamp - t0 ≥ LONGPRESS_THRESHOLD)
      | none => false
    let fired2 :=
      if longFire then
        match kEL ev.keycode with
        | some e => s.fired ++ [e]
        | none => s.fired
      else
        match kE ev.keycode with
        | some e => s.fired ++ [e]
        | none => s.fired
    { fired := fired2,
      keyDownTimestamps := fun k => if k = ev.keycode then none else s.keyDownTimestamps k }
  else s

/-- One completed physical key press processed by `_read_keys`: key-down
at `t0`, then key-up at `t1`. -/
def pressRun (kE kEL : String → Option Event) (s : RCState) (k : String) (t0 t1 : ℚ) : RCState :=
  read_key kE kEL (read_key kE kEL s ⟨k, 1, t0⟩) ⟨k, 0, t1⟩

/-! ### Playback monitor (`devices/pcm_monitor.py`) -/

/-- Outcome of one attempt to open and read the `/proc/asound/.../status`
probe: a first line, `FileNotFoundError`, or any other I/O error (for
example `PermissionError` on an unreadable file). -/
inductive ProbeResult
  | ok (status : String)
  | fileNotFound
  | readError
deriving DecidableEq

/-- Source `PcmMonitor.is_closed`: `True` iff the first status line is exactly
`"closed"`; `FileNotFoundError` is caught (warning logged) and reported as
closed; any other error escapes. -/
def is_closed : ProbeResult → Except String Bool
  | ProbeResult.ok status => Except.ok (status = "closed")
  | ProbeResult.fileNotFound => Except.ok true
  | ProbeResult.readError => Except.error "OSError"

/-- Monitor-loop state: last observed closedness and the events fired. -/
structure MonState where
  wasClosed : Bool
  events : List Event
deriving DecidableEq

/-- Source `PcmMonitor.send_event`. -/
def send_event (s : MonState) (isClosed : Bool) : MonState :=
  { s with events :=
      s.events ++ [if isClosed then Event.PLAYBACK_STOP else Event.PLAYBACK_START] }

/-- One iteration of the `while True` polling loop in
`PcmMonitor.monitor`: probe, fire on change, else keep going. An
exception escaping `is_closed` terminates the loop (the coroutine dies in
its task group). -/
def monitorStep (s : MonState) (p : ProbeResult) : Except String MonState :=
  match is_closed p with
  | Except.error e => Except.error e
  | Except.ok st =>
      if st ≠ s.wasClosed then Except.ok { send_event s st with wasClosed := st }
      else Except.ok s

/-- The head of `PcmMonitor.monitor`: one initial probe whose state is
announced unconditionally. -/
def monitorStart (p : ProbeResult) : Except String MonState :=
  match is_closed p with
  | Except.error e => Except.error e
  | Except.ok st => Except.ok (send_event { wasClosed := st, events := [] } st)

/-- Run the polling loop over a finite prefix of probe outcomes. -/
def monitorRun (s : MonState) : List ProbeResult → Except String MonState
  | [] => Except.ok s
  | p :: ps =>
      match monitorStep s p with
      | Except.error e => Except.error e
      | Except.ok s2 => monitorRun s2 ps

/-! ### Lemmas about the router model -/

theorem fanout_all_ok (behav : Behaviour) (hb : ∀ h e, behav h e = true)
    (hs : List Handler) (e : Event) (o : Origin) :
    fanout behav hs e o = (hs.map (fun h => (h, e, o)), none) := by
  induction hs with
  | nil => rfl
  | cons h rest ih => simp [fanout, hb, ih]

theorem subscribe_fields (s : RouterState) (es : List Event) (cb : Handler) :
    (subscribe s es cb).gateOpen = s.gateOpen ∧
    (subscribe s es cb).pending = s.pending ∧
    (subscribe s es cb).delivered = s.delivered := by
  induction es generalizing s with
  | nil => exact ⟨rfl, rfl, rfl⟩
  | cons e rest ih =>
      simpa [subscribe] using
        ih { s with callbacks := fun e2 =>
              if e2 = e then setAdd (s.callbacks e) cb else s.callbacks e2 }

theorem setAdd_nodup (l : List Handler) (h : Handler) (hl : l.Nodup) :
    (setAdd l h).Nodup := by
  unfold setAdd
  split
  · exact hl
  · rename_i hmem
    rw [List.nodup_append]
    refine ⟨hl, List.nodup_singleton h, ?_⟩
    intro a ha hb
    exact hmem ((List.mem_singleton.mp hb) ▸ ha)

theorem subscribe_nodup (s : RouterState) (es : List Event) (cb : Handler)
    (h : ∀ e, (s.callbacks e).Nodup) :
    ∀ e, ((subscribe s es cb).callbacks e).Nodup := by
  induction es generalizing s with
  | nil => exact h
  | cons e rest ih =>
      have step : ∀ e2,
          (((fun e2 => if e2 = e then setAdd (s.callbacks e) cb else s.callbacks e2)) e2).Nodup := by
        intro e2
        by_cases he : e2 = e
        · simp only [he, if_pos rfl]
          exact setAdd_nodup _ _ (h e)
        · simp only [if_neg he]
          exact h e2
      simpa [subscribe] using
        ih { s with callbacks := fun e2 =>
              if e2 = e then setAdd (s.callbacks e) cb else s.callbacks e2 } step

theorem fire_event_callbacks (behav : Behaviour) (s : RouterState) (e : Event) (o : Origin) :
    (fire_event behav s e o).1.callbacks = s.callbacks := by
  unfold fire_event
  split <;> rfl

theorem fire_event_closed (behav : Behaviour) (s : RouterState) (e : Event) (o : Origin)
    (hg : s.gateOpen = false) :
    (fire_event behav s e o).1 = { s with pending := s.pending ++ [(e, o)] } := by
  simp [fire_event, hg]

theorem deliverAll_frame (behav : Behaviour) (l : List (Event × Origin)) (st : RouterState) :
    (deliverAll behav st l).callbacks = st.callbacks ∧
    (deliverAll behav st l).gateOpen = st.gateOpen ∧
    (deliverAll behav st l).pending = st.pending := by
  induction l generalizing st with
  | nil => exact ⟨rfl, rfl, rfl⟩
  | cons p rest ih =>
      simpa [deliverAll] using
        ih { st with delivered := st.delivered ++ (fanout behav (st.callbacks p.1) p.1 p.2).1 }

theorem deliverAll_delivered (behav : Behaviour) (hb : ∀ h e, behav h e = true)
    (l : List (Event × Origin)) (st : RouterState) :
    (deliverAll behav st l).delivered
      = st.delivered ++ l.flatMap (fun p => (st.callbacks p.1).map (fun h => (h, p.1, p.2))) := by
  induction l generalizing st with
  | nil => simp [deliverAll]
  | cons p rest ih =>
      have := ih { st with delivered := st.delivered ++ (fanout behav (st.callbacks p.1) p.1 p.2).1 }
      simp only [deliverAll, List.foldl_cons] at this ⊢
      rw [this, fanout_all_ok behav hb]
      simp [List.append_assoc]

theorem run_append (behav : Behaviour) (s : RouterState) (l1 l2 : List Cmd) :
    run behav s (l1 ++ l2) = run behav (run behav s l1) l2 := by
  induction l1 generalizing s with
  | nil => rfl
  | cons c rest ih => cases c <;> simp [run, ih]

theorem run_closed (behav : Behaviour) (s : RouterState) (cmds : List Cmd)
    (hg : s.gateOpen = false) (hng : Cmd.openGate ∉ cmds) :
    (run behav s cmds).gateOpen = false ∧
    (run behav s cmds).delivered = s.delivered ∧
    (run behav s cmds).pending = s.pending ++ firesOf cmds := by
  induction cmds generalizing s with
  | nil => simp [run, firesOf, hg]
  | cons c rest ih =>
      have hng2 : Cmd.openGate ∉ rest := fun hm => hng (List.mem_cons_of_mem _ hm)
      cases c with
      | subscribe es cb =>
          have hf := subscribe_fields s es cb
          have hr := ih (subscribe s es cb) (hf.1.trans hg) hng2
          refine ⟨hr.1, ?_, ?_⟩
          · rw [show run behav s (Cmd.subscribe es cb :: rest)
                  = run behav (subscribe s es cb) rest from rfl, hr.2.1, hf.2.2]
          · rw [show run behav s (Cmd.subscribe es cb :: rest)
                  = run behav (subscribe s es cb) rest from rfl, hr.2.2, hf.2.1]
            simp [firesOf]
      | fire e o =>
          have hstep := fire_event_closed behav s e o hg
          have hr := ih (fire_event behav s e o).1 (by rw [hstep]; exact hg) hng2
          refine ⟨hr.1, ?_, ?_⟩
          · rw [show run behav s (Cmd.fire e o :: rest)
                  = run behav (fire_event behav s e o).1 rest from rfl, hr.2.1, hstep]
          · rw [show run behav s (Cmd.fire e o :: rest)
                  = run behav (fire_event behav s e o).1 rest from rfl, hr.2.2, hstep]
            simp [firesOf]
      | openGate => exact absurd (List.mem_cons_self _ _) hng

theorem run_nodup (behav : Behaviour) (s : RouterState) (cmds : List Cmd)
    (h : ∀ e, (s.callbacks e).Nodup) :
    ∀ e, ((run behav s cmds).callbacks e).Nodup := by
  induction cmds generalizing s with
  | nil => exact h
  | cons c rest ih =>
      cases c with
      | subscribe es cb => exact ih _ (subscribe_nodup s es cb h)
      | fire e o =>
          apply ih
          intro e2
          rw [fire_event_callbacks]
          exact h e2
      | openGate =>
          refine ih (start_routing behav s) ?_
          intro e2
          rw [start_routing, (deliverAll_frame behav s.pending _).1]
          exact h e2

/-! ### Claims about the event router -/

/-- Helper for C2: a fan-out whose handler list is `pre ++ bad :: post`,
where every handler in `pre` returns normally and `bad` raises, invokes
exactly `pre ++ [bad]` and lets the exception of `bad` escape. -/
theorem fanout_abort (behav : Behaviour) (pre post : List Handler)
    (bad : Handler) (e : Event) (o : Origin)
    (hpre : ∀ h ∈ pre, behav h e = true) (hbad : behav bad e = false) :
    fanout behav (pre ++ bad :: post) e o
      = ((pre ++ [bad]).map (fun h => (h, e, o)), some bad) := by
  induction pre with
  | nil => simp [fanout, hbad]
  | cons h rest ih =>
      have hh : behav h e = true := hpre h (List.mem_cons_self h rest)
      have ih2 := ih (fun x hx => hpre x (List.mem_cons_of_mem _ hx))
      simp [fanout, hh, ih2]

/-- C1: for every sequence of `fire_event` calls issued before
`start_routing`, no handler is invoked before the gate opens; the fires
are queued in order; once the gate opens every queued event is delivered
to exactly the handlers subscribed for its tag at the moment of delivery;
and each per-tag handler set is duplicate-free, so each handler receives
each queued event exactly once. -/
theorem c1_gate_buffers_then_delivers_exactly_once (behav : Behaviour)
    (hb : ∀ h e, behav h e = true) (cmds : List Cmd)
    (hng : Cmd.openGate ∉ cmds) :
    (run behav routerInit cmds).delivered = [] ∧
    (run behav routerInit cmds).pending = firesOf cmds ∧
    (run behav routerInit (cmds ++ [Cmd.openGate])).delivered
      = (firesOf cmds).flatMap
          (fun p => ((run behav routerInit cmds).callbacks p.1).map (fun h => (h, p.1, p.2))) ∧
    ∀ e, ((run behav routerInit cmds).callbacks e).Nodup := by
  have hc := run_closed behav routerInit cmds rfl hng
  have hdeliv : (run behav routerInit cmds).delivered = [] := hc.2.1
  have hpend : (run behav routerInit cmds).pending = firesOf cmds := by
    simpa [routerInit] using hc.2.2
  refine ⟨hdeliv, hpend, ?_, run_nodup behav routerInit cmds (fun _ => List.nodup_nil)⟩
  rw [run_append]
  show (start_routing behav (run behav routerInit cmds)).delivered = _
  rw [start_routing, deliverAll_delivered behav hb]
  rw [show ({ run behav routerInit cmds with gateOpen := true, pending := [] } :
        RouterState).delivered = (run behav routerInit cmds).delivered from rfl]
  rw [hdeliv, hpend]
  rfl

/-- Witness for C1: one subscriber to `PLAYBACK_START`, one fire before
the gate opens; opening the gate delivers it exactly once. -/
theorem c1_gate_buffers_then_delivers_exactly_once_witness :
    (run (fun _ _ => true) routerInit
        ([Cmd.subscribe [Event.PLAYBACK_START] 0, Cmd.fire Event.PLAYBACK_START "pcm"]
          ++ [Cmd.openGate])).delivered
      = [(0, Event.PLAYBACK_START, "pcm")] := by
  have h := c1_gate_buffers_then_delivers_exactly_once (fun _ _ => true) (fun _ _ => rfl)
      [Cmd.subscribe [Event.PLAYBACK_START] 0, Cmd.fire Event.PLAYBACK_START "pcm"]
      (by decide)
  rw [h.2.2.1]
  rfl

/-- C2 counterexample: with handlers `[0, 1]` subscribed to
`PLAYBACK_START` and handler `0` raising, `fire_event` lets the exception
escape (it is not caught) and handler `1` — a remaining subscriber of the
same event — is never invoked. -/
theorem c2_exception_not_isolated_counterexample :
    (fire_event (fun h _ => h == 1)
        { callbacks := fun _ => [0, 1], gateOpen := true, pending := [], delivered := [] }
        Event.PLAYBACK_START "pcm").2 = some 0 ∧
    (fire_event (fun h _ => h == 1)
        { callbacks := fun _ => [0, 1], gateOpen := true, pending := [], delivered := [] }
        Event.PLAYBACK_START "pcm").1.delivered
      = [(0, Event.PLAYBACK_START, "pcm")] :=
  ⟨rfl, rfl⟩

/-- C2 (amended): the fan-out loop of `fire_event` has no exception
handling: when the handler list for the tag is `pre ++ bad :: post` with
every handler of `pre` returning normally and `bad` raising, exactly
`pre ++ [bad]` are invoked, the handlers after `bad` are skipped, and the
exception escapes `fire_event` uncaught. -/
theorem c2_handler_exception_aborts_fanout (behav : Behaviour) (s : RouterState)
    (pre post : List Handler) (bad : Handler) (e : Event) (o : Origin)
    (hopen : s.gateOpen = true) (hcb : s.callbacks e = pre ++ bad :: post)
    (hpre : ∀ h ∈ pre, behav h e = true) (hbad : behav bad e = false) :
    (fire_event behav s e o).2 = some bad ∧
    (fire_event behav s e o).1.delivered
      = s.delivered ++ (pre ++ [bad]).map (fun h => (h, e, o)) := by
  have hf := fanout_abort behav pre post bad e o hpre hbad
  constructor
  · simp [fire_event, hopen, hcb, hf]
  · simp [fire_event, hopen, hcb, hf]

/-- Witness for C2 (amended) with `pre = []`, `bad = 0`, `post = [1]`. -/
theorem c2_handler_exception_aborts_fanout_witness :
    (fire_event (fun h _ => h == 1)
        { callbacks := fun _ => [0, 1], gateOpen := true, pending := [], delivered := [] }
        Event.PLAYBACK_STOP "x").2 = some 0 ∧
    (fire_event (fun h _ => h == 1)
        { callbacks := fun _ => [0, 1], gateOpen := true, pending := [], delivered := [] }
        Event.PLAYBACK_STOP "x").1.delivered
      = [] ++ ([] ++ [0]).map (fun h => (h, Event.PLAYBACK_STOP, "x")) :=
  c2_handler_exception_aborts_fanout (fun h _ => h == 1)
    { callbacks := fun _ => [0, 1], gateOpen := true, pending := [], delivered := [] }
    [] [1] 0 Event.PLAYBACK_STOP "x" rfl rfl
    (fun h hx => absurd hx (List.not_mem_nil h)) rfl

/-- C10: after the gate is open, firing an event whose tag has no
subscribed handler is a safe no-op — the defaultdict yields the empty
handler set, zero handlers are invoked, no exception is raised, and the
router state is unchanged. -/
theorem c10_fire_without_subscribers_is_noop (behav : Behaviour) (s : RouterState)
    (e : Event) (o : Origin)
    (hopen : s.gateOpen = true) (hempty : s.callbacks e = []) :
    fire_event behav s e o = (s, none) := by
  unfold fire_event
  rw [if_pos hopen, hempty]
  simp [fanout]

/-- Witness for C10: an `API_BLUETOOTH_ON` fired from the REST boundary
right after gate-open, with no controller subscribed. -/
theorem c10_fire_without_subscribers_is_noop_witness :
    fire_event (fun _ _ => true) (start_routing (fun _ _ => true) routerInit)
        Event.API_BLUETOOTH_ON "rest"
      = (start_routing (fun _ _ => true) routerInit, none) :=
  c10_fire_without_subscribers_is_noop (fun _ _ => true)
    (start_routing (fun _ _ => true) routerInit) Event.API_BLUETOOTH_ON "rest" rfl rfl

/-! ### Claims about the Bluetooth controller -/

/-- Field-preservation facts about `stop_pairing_mode` (it only touches
`allowPairing` and `liveTimers`). -/
theorem stop_pairing_mode_fields (s : BTState) :
    (stop_pairing_mode s).allowPairing = false ∧
    (stop_pairing_mode s).trusted = s.trusted ∧
    (stop_pairing_mode s).registered = s.registered ∧
    (stop_pairing_mode s).discoverable = s.discoverable ∧
    (stop_pairing_mode s).powered = s.powered ∧
    (stop_pairing_mode s).pairingTimer = s.pairingTimer ∧
    (stop_pairing_mode s).nextTimer = s.nextTimer := by
  unfold stop_pairing_mode
  cases s.pairingTimer <;> exact ⟨rfl, rfl, rfl, rfl, rfl, rfl, rfl⟩

/-- Generic helper: an element never survives a filter that removes it. -/
theorem not_mem_filter_ne_self {α : Type} [DecidableEq α] (l : List α) (a : α) :
    a ∉ l.filter (fun x => x ≠ a) := by
  simp [List.mem_filter]

/-- Function `trust_device` puts the device in the trusted set. -/
theorem trust_device_mem (s : BTState) (d : String) : d ∈ (trust_device s d).trusted := by
  unfold trust_device
  dsimp
  split
  · assumption
  · simp

/-- C3 counterexample: the handler for `KEY_OPENCLOSE` / `API_BLUETOOTH_ON`
runs `power_on`, and `power_on` calls `set_discoverable(True)` — starting
from the post-`_init` baseline the resulting adapter state is
discoverable, not "powered-on, not-discoverable" as claimed. -/
theorem c3_power_on_makes_discoverable_counterexample :
    (power_on btInit).discoverable = true := rfl

/-- C3 (amended): on `KEY_OPENCLOSE` or `API_BLUETOOTH_ON` the controller
powers the adapter on AND makes it discoverable (the adapter itself closes
discoverability after its 90 s discoverable-timeout); the pairing window is
not opened — the pairing flag of the agent and the expiry timers are untouched,
so pairing requests are still rejected. -/
theorem c3_power_on_behaviour (s : BTState) :
    (power_on s).powered = true ∧
    (power_on s).discoverable = true ∧
    (power_on s).allowPairing = s.allowPairing ∧
    (power_on s).pairingTimer = s.pairingTimer ∧
    (power_on s).liveTimers = s.liveTimers :=
  ⟨rfl, rfl, rfl, rfl, rfl⟩

/-- C4 counterexample: open a pairing window (`make_discoverable`), then
deliver `API_BLUETOOTH_OFF` (whose handler runs `power_off`): the armed
90 s expiry timer is still live and pairing is still allowed. -/
theorem c4_power_off_leaves_timer_counterexample :
    (power_off (make_discoverable btInit)).liveTimers = [0] ∧
    (power_off (make_discoverable btInit)).allowPairing = true :=
  ⟨rfl, rfl⟩

/-- C4 (amended): the `API_BLUETOOTH_OFF` handler runs `power_off`, which
powers the adapter off unconditionally and does nothing else: it does not
cancel a pending pairing-window expiry timer and does not withdraw pairing
permission. -/
theorem c4_power_off_only_powers_down (s : BTState) :
    (power_off s).powered = false ∧
    (power_off s).allowPairing = s.allowPairing ∧
    (power_off s).pairingTimer = s.pairingTimer ∧
    (power_off s).liveTimers = s.liveTimers ∧
    (power_off s).discoverable = s.discoverable :=
  ⟨rfl, rfl, rfl, rfl, rfl⟩

/-- C5: `AuthorizeService` with the pairing window open grants (returns
without error), trusts the remote device, closes discoverability early,
closes the window, and cancels the expiry timer so it can never later
fire; with the window closed it raises
`DBusError("org.bluez.Error.Rejected", ...)` to the caller and erases the
partial registration state of the device. -/
theorem c5_authorize_service (s : BTState) (d u : String) :
    (s.allowPairing = true →
      (AuthorizeService s d u).2 = Except.ok () ∧
      d ∈ (AuthorizeService s d u).1.trusted ∧
      (AuthorizeService s d u).1.discoverable = false ∧
      (AuthorizeService s d u).1.allowPairing = false ∧
      ∀ t, s.pairingTimer = some t →
        t ∉ (AuthorizeService s d u).1.liveTimers ∧
        pairingTimerFire (AuthorizeService s d u).1 t = (AuthorizeService s d u).1) ∧
    (s.allowPairing = false →
      (AuthorizeService s d u).2 = Except.error "org.bluez.Error.Rejected" ∧
      d ∉ (AuthorizeService s d u).1.registered) := by
  constructor
  · intro h
    have hA : AuthorizeService s d u
        = (stop_discoverable (trust_device (stop_pairing_mode s) d), Except.ok ()) := by
      unfold AuthorizeService
      rw [if_pos h]
    rw [hA]
    refine ⟨rfl, ?_, rfl, ?_, ?_⟩
    · show d ∈ (trust_device (stop_pairing_mode s) d).trusted
      exact trust_device_mem _ d
    · show (trust_device (stop_pairing_mode s) d).allowPairing = false
      show (stop_pairing_mode s).allowPairing = false
      exact (stop_pairing_mode_fields s).1
    · intro t ht
      have hlive : (stop_discoverable (trust_device (stop_pairing_mode s) d)).liveTimers
          = s.liveTimers.filter (fun x => x ≠ t) := by
        show (stop_pairing_mode s).liveTimers = _
        unfold stop_pairing_mode
        rw [ht]
      have hnm : t ∉ (stop_discoverable (trust_device (stop_pairing_mode s) d)).liveTimers := by
        rw [hlive]
        exact not_mem_filter_ne_self _ t
      refine ⟨hnm, ?_⟩
      unfold pairingTimerFire
      rw [if_neg hnm]
  · intro h
    have hA : AuthorizeService s d u
        = (forget_device s d, Except.error "org.bluez.Error.Rejected") := by
      unfold AuthorizeService
      rw [if_neg (by rw [h]; exact Bool.false_ne_true)]
    rw [hA]
    exact ⟨rfl, not_mem_filter_ne_self _ d⟩

/-- Witness for C5: grant from an open window (`make_discoverable`), deny
from the post-`_init` baseline. -/
theorem c5_authorize_service_witness :
    (AuthorizeService (make_discoverable btInit) "/org/bluez/hci0/dev_AA" "uuid").2
      = Except.ok () ∧
    (AuthorizeService btInit "/org/bluez/hci0/dev_AA" "uuid").2
      = Except.error "org.bluez.Error.Rejected" :=
  ⟨((c5_authorize_service (make_discoverable btInit) "/org/bluez/hci0/dev_AA" "uuid").1 rfl).1,
   ((c5_authorize_service btInit "/org/bluez/hci0/dev_AA" "uuid").2 rfl).1⟩

/-! ### Claims about timer discipline (pairing window, amplifier) -/

/-- Under the pairing-timer discipline, `stop_pairing_mode` leaves no live
expiry timer at all. -/
theorem stop_pairing_mode_kills (s : BTState) (h : pairingTimerInv s) :
    (stop_pairing_mode s).liveTimers = [] := by
  unfold stop_pairing_mode
  cases hp : s.pairingTimer with
  | none =>
      dsimp only
      refine List.eq_nil_iff_forall_not_mem.mpr fun t ht => ?_
      have := h.2 t ht
      rw [hp] at this
      exact Option.noConfusion this
  | some t =>
      dsimp only
      refine List.filter_eq_nil_iff.mpr fun a ha => ?_
      have hpa := h.2 a ha
      rw [hp] at hpa
      have : t = a := Option.some.inj hpa
      simp [this]

/-- Every stimulus preserves the pairing-timer discipline. -/
theorem pairingTimerInv_step (s : BTState) (c : BTCmd) (h : pairingTimerInv s) :
    pairingTimerInv (btStep s c) := by
  cases c with
  | powerOn => exact h
  | powerOff => exact h
  | makeDiscoverable =>
      have hk := stop_pairing_mode_kills s h
      show pairingTimerInv (power_on (start_pairing_mode s))
      have hlive : (power_on (start_pairing_mode s)).liveTimers
          = [(stop_pairing_mode s).nextTimer] := by
        show (stop_pairing_mode s).liveTimers ++ [(stop_pairing_mode s).nextTimer] = _
        rw [hk]
        rfl
      constructor
      · rw [hlive]
        exact Nat.le_refl 1
      · intro t ht
        rw [hlive] at ht
        have : t = (stop_pairing_mode s).nextTimer := List.mem_singleton.mp ht
        show some (stop_pairing_mode s).nextTimer = some t
        rw [this]
  | timerFire t =>
      show pairingTimerInv (pairingTimerFire s t)
      unfold pairingTimerFire
      split
      · rename_i hmem
        have hall : ∀ a ∈ s.liveTimers.filter (fun x => x ≠ t), False := by
          intro a ha
          have ha2 := List.mem_filter.mp ha
          have hpa := h.2 a ha2.1
          have hpt := h.2 t hmem
          have : a = t := by
            rw [hpa] at hpt
            exact Option.some.inj hpt
          simp [this] at ha2
        have hnil : s.liveTimers.filter (fun x => x ≠ t) = [] :=
          List.eq_nil_iff_forall_not_mem.mpr fun a ha => hall a ha
        have hk := stop_pairing_mode_kills
            { s with liveTimers := s.liveTimers.filter (fun x => x ≠ t) }
            ⟨by rw [hnil]; exact Nat.zero_le 1, by
              intro a ha
              rw [hnil] at ha
              exact absurd ha (List.not_mem_nil a)⟩
        constructor
        · rw [hk]
          exact Nat.zero_le 1
        · intro a ha
          rw [hk] at ha
          exact absurd ha (List.not_mem_nil a)
      · exact h
  | authorize d un =>
      show pairingTimerInv (AuthorizeService s d un).1
      unfold AuthorizeService
      split
      · rename_i hp
        have hk := stop_pairing_mode_kills s h
        have hlive : (stop_discoverable (trust_device (stop_pairing_mode s) d)).liveTimers
            = [] := hk
        constructor
        · rw [hlive]
          exact Nat.zero_le 1
        · intro a ha
          rw [hlive] at ha
          exact absurd ha (List.not_mem_nil a)
      · exact h

/-- The discipline holds along every run from the post-`_init` state. -/
theorem btRun_inv (s : BTState) (cmds : List BTCmd) (h : pairingTimerInv s) :
    pairingTimerInv (btRun s cmds) := by
  induction cmds generalizing s with
  | nil => exact h
  | cons c rest ih => exact ih (btStep s c) (pairingTimerInv_step s c h)

/-- C7 counterexample: two `PLAYBACK_STOP` deliveries in a row (possible
with two monitored PCM devices) leave two live shutdown timers for the
amplifier power-off purpose — `playback_stop` armed the second without
cancelling the first. -/
theorem c7_two_live_shutdown_timers_counterexample :
    (playback_stop (playback_stop ampInit)).liveTimers = [0, 1] := rfl

/-- C7 (amended): the cancel-then-arm discipline holds for the
pairing-window purpose — in every state the Bluetooth controller can reach
from its post-`_init` baseline, at most one expiry timer is live and any
live one is the currently stored handle — but not for the amplifier
power-off purpose: `HK970.playback_stop` arms a new shutdown timer while
keeping every previously live one. -/
theorem c7_timer_discipline (cmds : List BTCmd) (a : AmpState) :
    pairingTimerInv (btRun btInit cmds) ∧
    (playback_stop a).liveTimers = a.liveTimers ++ [a.nextTimer] := by
  constructor
  · refine btRun_inv btInit cmds ⟨Nat.zero_le 1, ?_⟩
    intro t ht
    exact absurd ht (List.not_mem_nil t)
  · rfl

/-- C9 counterexample: `PLAYBACK_STOP` (arms timer 0), `PLAYBACK_STOP`
(arms timer 1), `PLAYBACK_START` (cancels only timer 1, powers on). Timer
0 is still live although the start arrived before it fired, and when it
fires the amplifier receives the power-off IR command `KEY_SLEEP` for the
first stop — after the `KEY_POWER` of the start. -/
theorem c9_stale_stop_timer_fires_counterexample :
    0 ∈ (playback_start (playback_stop (playback_stop ampInit))).liveTimers ∧
    (ampTimerFire (playback_start (playback_stop (playback_stop ampInit))) 0).commands
      = ["KEY_SLEEP", "KEY_POWER", "KEY_SLEEP"] := by
  constructor
  · decide
  · rfl

/-- C9 (amended): for a `PLAYBACK_STOP` followed by a `PLAYBACK_START`
with no intervening stop, the start cancels exactly the timer the stop
armed — that timer is no longer live, firing it is a no-op, and the only
IR command issued is the immediate `KEY_POWER` — so no power-off is ever
sent for that stop. (If another `PLAYBACK_STOP` intervenes, only the most
recently stored handle is cancelled; see the counterexample.) -/
theorem c9_debounce_single_stop (s : AmpState) :
    s.nextTimer ∉ (playback_start (playback_stop s)).liveTimers ∧
    ampTimerFire (playback_start (playback_stop s)) s.nextTimer
      = playback_start (playback_stop s) ∧
    (playback_start (playback_stop s)).commands = s.commands ++ ["KEY_POWER"] := by
  have hnm : s.nextTimer ∉ (playback_start (playback_stop s)).liveTimers := by
    show s.nextTimer ∉ (s.liveTimers ++ [s.nextTimer]).filter (fun x => x ≠ s.nextTimer)
    exact not_mem_filter_ne_self _ _
  refine ⟨hnm, ?_, rfl⟩
  unfold ampTimerFire
  rw [if_neg hnm]

/-! ### Claims about the remote-control classifier -/

/-- Key-down on a key with a long-press mapping records the timestamp,
overwriting any stale entry. -/
theorem read_key_down_long (kE kEL : String → Option Event) (s : RCState)
    (k : String) (t0 : ℚ) (eL : Event) (hL : kEL k = some eL) :
    read_key kE kEL s ⟨k, 1, t0⟩
      = { s with keyDownTimestamps := fun k2 =>
            if k2 = k then some t0 else s.keyDownTimestamps k2 } := by
  unfold read_key
  rw [if_pos ⟨rfl, by rw [hL]; rfl⟩]

/-- Key-down on a key without a long-press mapping is ignored. -/
theorem read_key_down_nolong (kE kEL : String → Option Event) (s : RCState)
    (k : String) (t0 : ℚ) (hL : kEL k = none) :
    read_key kE kEL s ⟨k, 1, t0⟩ = s := by
  unfold read_key
  rw [if_neg (fun hc => by rw [hL] at hc; exact absurd hc.2 (by decide))]
  rw [if_neg (fun hc => Nat.one_ne_zero hc)]

/-- The events fired by a key-up, as a function of the tracker entry and
the two mappings. -/
theorem read_key_up_fired (kE kEL : String → Option Event) (s : RCState)
    (k : String) (t1 : ℚ) :
    (read_key kE kEL s ⟨k, 0, t1⟩).fired
      = if (match s.keyDownTimestamps k with
            | some t0 => decide (t1 - t0 ≥ LONGPRESS_THRESHOLD)
            | none => false) then
          (match kEL k with | some e => s.fired ++ [e] | none => s.fired)
        else
          (match kE k with | some e => s.fired ++ [e] | none => s.fired) := by
  unfold read_key
  rw [if_neg (fun hc => Nat.zero_ne_one hc.1)]
  rw [if_pos rfl]

/-- A key-up removes the tracker entry for its key unconditionally. -/
theorem read_key_up_tracker (kE kEL : String → Option Event) (s : RCState)
    (k : String) (t1 : ℚ) :
    (read_key kE kEL s ⟨k, 0, t1⟩).keyDownTimestamps k = none := by
  unfold read_key
  rw [if_neg (fun hc => Nat.zero_ne_one hc.1)]
  rw [if_pos rfl]
  simp

/-- C6: for a completed press of key `k` (down at `t0`, up at `t1`,
starting from a state with no stale tracker entry for `k`): with a
long-press mapping and duration ≥ 3.0 s exactly the long-press event is
fired; with both mappings and duration < 3.0 s exactly the plain event is
fired; with no long-press mapping the plain event is fired regardless of
duration; and the tracker entry for `k` is gone after the key-up in every
case. -/
theorem c6_keypress_classification (kE kEL : String → Option Event) (k : String)
    (t0 t1 : ℚ) (s : RCState) (hstale : s.keyDownTimestamps k = none) :
    (∀ eL, kEL k = some eL → LONGPRESS_THRESHOLD ≤ t1 - t0 →
       (pressRun kE kEL s k t0 t1).fired = s.fired ++ [eL]) ∧
    (∀ eL e, kEL k = some eL → kE k = some e → t1 - t0 < LONGPRESS_THRESHOLD →
       (pressRun kE kEL s k t0 t1).fired = s.fired ++ [e]) ∧
    (∀ e, kEL k = none → kE k = some e →
       (pressRun kE kEL s k t0 t1).fired = s.fired ++ [e]) ∧
    (pressRun kE kEL s k t0 t1).keyDownTimestamps k = none := by
  refine ⟨?_, ?_, ?_, ?_⟩
  · intro eL hL h3
    rw [pressRun, read_key_down_long kE kEL s k t0 eL hL, read_key_up_fired]
    simp [hL, h3]
  · intro eL e hL hE h3
    rw [pressRun, read_key_down_long kE kEL s k t0 eL hL, read_key_up_fired]
    have hn : ¬ (LONGPRESS_THRESHOLD ≤ t1 - t0) := not_le.mpr h3
    simp [hL, hE, hn]
  · intro e hL hE
    rw [pressRun, read_key_down_nolong kE kEL s k t0 hL, read_key_up_fired]
    simp [hstale, hE]
  · rw [pressRun, read_key_up_tracker]

/-- Witness for C6 on the concrete mapping tables of `RemoteControl`:
down at 0, up at 2.9 fires the short event; up at 3.1 fires the long
event; the tracker is empty afterwards. -/
theorem c6_keypress_classification_witness :
    (pressRun KEY_EVENTS KEY_EVENTS_LONGPRESS rcInit "KEY_EJECTCLOSECD" 0 (29/10)).fired
      = [] ++ [Event.KEY_OPENCLOSE] ∧
    (pressRun KEY_EVENTS KEY_EVENTS_LONGPRESS rcInit "KEY_EJECTCLOSECD" 0 (31/10)).fired
      = [] ++ [Event.KEY_OPENCLOSE_LONG] ∧
    (pressRun KEY_EVENTS KEY_EVENTS_LONGPRESS rcInit
        "KEY_EJECTCLOSECD" 0 (29/10)).keyDownTimestamps "KEY_EJECTCLOSECD" = none := by
  refine ⟨?_, ?_, ?_⟩
  · exact (c6_keypress_classification KEY_EVENTS KEY_EVENTS_LONGPRESS
        "KEY_EJECTCLOSECD" 0 (29/10) rcInit rfl).2.1
        Event.KEY_OPENCLOSE_LONG Event.KEY_OPENCLOSE (by decide) (by decide)
        (by norm_num [LONGPRESS_THRESHOLD])
  · exact (c6_keypress_classification KEY_EVENTS KEY_EVENTS_LONGPRESS
        "KEY_EJECTCLOSECD" 0 (31/10) rcInit rfl).1
        Event.KEY_OPENCLOSE_LONG (by decide)
        (by norm_num [LONGPRESS_THRESHOLD])
  · exact (c6_keypress_classification KEY_EVENTS KEY_EVENTS_LONGPRESS
        "KEY_EJECTCLOSECD" 0 (29/10) rcInit rfl).2.2.2

/-! ### Claims about the playback monitor -/

/-- Any probe outcome other than `readError` yields a normal loop
iteration. -/
theorem monitorStep_ok (s : MonState) (p : ProbeResult)
    (hp : p ≠ ProbeResult.readError) :
    ∃ s2, monitorStep s p = Except.ok s2 := by
  cases p with
  | ok status =>
      unfold monitorStep is_closed
      dsimp only
      split
      · exact ⟨_, rfl⟩
      · exact ⟨_, rfl⟩
  | fileNotFound =>
      unfold monitorStep is_closed
      dsimp only
      split
      · exact ⟨_, rfl⟩
      · exact ⟨_, rfl⟩
  | readError => exact absurd rfl hp

/-- The polling loop survives any finite sequence of probe outcomes that
contains no hard read error. -/
theorem monitorRun_total (ps : List ProbeResult) :
    ∀ s, ProbeResult.readError ∉ ps → ∃ s2, monitorRun s ps = Except.ok s2 := by
  induction ps with
  | nil => exact fun s _ => ⟨s, rfl⟩
  | cons p rest ih =>
      intro s h
      obtain ⟨s2, hs2⟩ := monitorStep_ok s p (fun he => h (he ▸ List.mem_cons_self _ _))
      obtain ⟨s3, hs3⟩ := ih s2 (fun hm => h (List.mem_cons_of_mem _ hm))
      refine ⟨s3, ?_⟩
      unfold monitorRun
      rw [hs2]
      exact hs3

/-- C8 counterexample: a probe failure other than a missing file (for
example `PermissionError` on an unreadable status file) is not treated as
"closed": the exception escapes `is_closed` and the polling loop
terminates instead of retrying. -/
theorem c8_read_error_kills_monitor_counterexample :
    monitorRun { wasClosed := true, events := [] } [ProbeResult.readError]
      = Except.error "OSError" := rfl

/-- C8 (amended): only a missing status file (`FileNotFoundError`) is
handled: it is read as "closed" with a logged warning and the polling loop
keeps retrying every period for any error-free-probe sequence, however
long; any other probe error escapes and terminates the loop. -/
theorem c8_missing_file_fail_safe (s : MonState) (ps : List ProbeResult)
    (h : ProbeResult.readError ∉ ps) :
    is_closed ProbeResult.fileNotFound = Except.ok true ∧
    ∃ s2, monitorRun s ps = Except.ok s2 :=
  ⟨rfl, monitorRun_total ps s h⟩

/-- Witness for C8: a present-absent-present status file sequence. -/
theorem c8_missing_file_fail_safe_witness :
    is_closed ProbeResult.fileNotFound = Except.ok true ∧
    ∃ s2, monitorRun { wasClosed := true, events := [] }
        [ProbeResult.ok "running", ProbeResult.fileNotFound, ProbeResult.ok "closed"]
      = Except.ok s2 :=
  c8_missing_file_fail_safe { wasClosed := true, events := [] }
    [ProbeResult.ok "running", ProbeResult.fileNotFound, ProbeResult.ok "closed"]
    (by decide)
